import Mathlib

/-!
Shallow embedding of the Crafty "Text" component (src/text.js).

The component keeps, per entity, a text string `_text`, a font descriptor
object `_textFont` (a JS object with keys "type", "weight", "size",
"family", all initialised to the empty string), an optional `_textColor`
and `_strength`, and inherits `x`, `y`, `h`, `_w` from the 2D component.
JS objects are modelled as association lists `List (String × String)`;
the draw handler is modelled as a function producing a trace of drawing
context operations (canvas) or a DOM element record (DOM).  Event
emission (`this.trigger("Change")`) is modelled by returning the list of
event names triggered during the call.
-/

namespace CraftyText

/-- Lookup of `m[k]` on a JS object modelled as an association list:
the first binding for the key, `none` meaning the JS value `undefined`. -/
def getKey : List (String × String) → String → Option String
  | [], _ => none
  | (k', v') :: rest, k => if k' = k then some v' else getKey rest k

/-- Assignment `m[k] = v` on a JS object: replace the first binding of
the key in place, or append a new binding when the key is absent. -/
def setKey : List (String × String) → String → String → List (String × String)
  | [], k, v => [(k, v)]
  | (k', v') :: rest, k, v =>
      if k' = k then (k, v) :: rest else (k', v') :: setKey rest k v

/-- A JS `for (key in obj) target[key] = obj[key]` loop: assign every
binding of `obj` into `m`, left to right. -/
def mergeInto (m obj : List (String × String)) : List (String × String) :=
  obj.foldl (fun acc p => setKey acc p.1 p.2) m

/-- JS string coercion of a possibly-undefined value when concatenated
with `+`: `undefined` prints as "undefined". -/
def jsStr (v : Option String) : String :=
  v.getD "undefined"

/-- JS `v || d` for a possibly-undefined string `v`: `undefined` and the
empty string are falsy, anything else is returned as is. -/
def jsOr (v : Option String) (d : String) : String :=
  match v with
  | none => d
  | some s => if s = "" then d else s

/-- Component constant `defaultSize` ("10px"). -/
def defaultSize : String := "10px"

/-- Component constant `defaultFamily` ("sans-serif"). -/
def defaultFamily : String := "sans-serif"

/-- The entity state visible to the Text component: its own fields plus
the 2D fields the draw handler reads and writes, whether the entity has
the DOM component, and the css properties set through `.css()`. -/
structure TextEntity where
  _text : String
  _textFont : List (String × String)
  _textColor : Option String
  _strength : Option Int
  _w : Int
  x : Int
  y : Int
  h : Int
  hasDOM : Bool
  cssProps : List (String × String)
  deriving Repr, DecidableEq

/-- The `_textFont` object built by `init`: all four keys present and
bound to the empty string. -/
def initFont : List (String × String) :=
  [("type", ""), ("weight", ""), ("size", ""), ("family", "")]

/-- An entity fresh out of `init`: empty text, the `initFont` descriptor,
no colour and no strength set. -/
def initEntity (x y h : Int) (hasDOM : Bool) : TextEntity :=
  { _text := "", _textFont := initFont, _textColor := none,
    _strength := none, _w := 0, x := x, y := y, h := h,
    hasDOM := hasDOM, cssProps := [] }

/-- The composed font string of the draw handler:
`type + ' ' + weight + ' ' + (size || defaultSize) + ' ' + (family || defaultFamily)`. -/
def fontString (tf : List (String × String)) : String :=
  jsStr (getKey tf "type") ++ " " ++ jsStr (getKey tf "weight") ++ " " ++
    jsOr (getKey tf "size") defaultSize ++ " " ++
    jsOr (getKey tf "family") defaultFamily

/-- One operation performed on the canvas drawing context. -/
inductive CanvasOp where
  | save
  | setFillStyle (style : String)
  | setFont (font : String)
  | translate (x y : Int)
  | fillText (s : String) (x y : Int)
  | measureText (s : String)
  | restore
  deriving Repr, DecidableEq

/-- Result of the canvas branch of the draw handler: the trace of context
operations, in order, and the updated entity. -/
structure CanvasDrawResult where
  trace : List CanvasOp
  entity : TextEntity
  deriving Repr, DecidableEq

/-- The canvas branch of the `Draw` handler.  `measure font s` stands for
`context.measureText(s).width` with `context.font = font` in force. -/
def drawCanvas (e : TextEntity) (measure : String → String → Int) :
    CanvasDrawResult :=
  let font := fontString e._textFont
  { trace := [CanvasOp.save,
              CanvasOp.setFillStyle (jsOr e._textColor "rgb(0,0,0)"),
              CanvasOp.setFont font,
              CanvasOp.translate e.x (e.y + e.h),
              CanvasOp.fillText e._text 0 0,
              CanvasOp.measureText e._text,
              CanvasOp.restore],
    entity := { e with _w := measure font e._text } }

/-- The DOM element of an entity, as far as the draw handler touches it:
`style.color`, `style.font` and `innerHTML`. -/
structure DOMElement where
  styleColor : Option String
  styleFont : String
  innerHTML : String
  deriving Repr, DecidableEq

/-- The DOM branch of the `Draw` handler: write colour, font and the
literal text into the element. -/
def drawDOM (e : TextEntity) (el : DOMElement) : DOMElement :=
  { el with styleColor := e._textColor,
            styleFont := fontString e._textFont,
            innerHTML := e._text }

/-- The argument of `.text(...)`: absent or null (the getter form), a
string, or a zero-argument function evaluated on the entity. -/
inductive TextArg where
  | undef
  | null
  | str (s : String)
  | fn (f : TextEntity → String)

/-- Result of a `.text(...)` call: the new entity, the events triggered,
the string returned when the getter form returned early (`none` means the
call returned `this`), and how many times a function argument was
invoked. -/
structure TextCallResult where
  entity : TextEntity
  events : List String
  returned : Option String
  fnCalls : Nat

/-- The `.text(...)` method: with no (or null) argument return `_text`;
with a function argument store `text.call(this)`; with a string store it;
every storing branch triggers "Change" once. -/
def text (e : TextEntity) (arg : TextArg) : TextCallResult :=
  match arg with
  | TextArg.undef => { entity := e, events := [], returned := some e._text, fnCalls := 0 }
  | TextArg.null => { entity := e, events := [], returned := some e._text, fnCalls := 0 }
  | TextArg.fn f => { entity := { e with _text := f e }, events := ["Change"],
                      returned := none, fnCalls := 1 }
  | TextArg.str s => { entity := { e with _text := s }, events := ["Change"],
                       returned := none, fnCalls := 0 }

/-- Result of a state-changing call that returns `this`. -/
structure OpResult where
  entity : TextEntity
  events : List String
  deriving Repr, DecidableEq

/-- The `.textColor(color, strength)` method: store the strength, store
`Crafty.toRGB(color, strength)` (an external conversion, a parameter
here), trigger "Change". -/
def textColor (e : TextEntity) (color : String) (strength : Option Int)
    (toRGB : String → Option Int → String) : OpResult :=
  { entity := { e with _strength := strength,
                       _textColor := some (toRGB color strength) },
    events := ["Change"] }

/-- The single argument of a one-argument `.textFont(...)` call: a string
key (the getter form), an object map, or any other value such as a
number. -/
inductive FontArg where
  | str (k : String)
  | obj (m : List (String × String))
  | other

/-- Result of a one-argument `.textFont(...)` call: entity, events, and
the value returned by the getter form (`some r` when the call returned
`this._textFont[key]`, which itself may be `undefined`). -/
structure FontCallResult where
  entity : TextEntity
  events : List String
  returned : Option (Option String)
  deriving Repr, DecidableEq

/-- `.textFont(key)` with one argument: a string key returns the stored
value without triggering; an object merges its bindings into the
descriptor; any other value falls through both branches; every
non-getter shape triggers "Change" once and returns `this`. -/
def textFont1 (e : TextEntity) (arg : FontArg) : FontCallResult :=
  match arg with
  | FontArg.str k =>
      { entity := e, events := [], returned := some (getKey e._textFont k) }
  | FontArg.obj m =>
      { entity := { e with _textFont := mergeInto e._textFont m },
        events := ["Change"], returned := none }
  | FontArg.other =>
      { entity := e, events := ["Change"], returned := none }

/-- `.textFont(key, value)` with two arguments: assign
`this._textFont[key] = value` and trigger "Change". -/
def textFont2 (e : TextEntity) (k v : String) : OpResult :=
  { entity := { e with _textFont := setKey e._textFont k v },
    events := ["Change"] }

/-- The css properties set by `.unselectable()`. -/
def unselectableCss : List (String × String) :=
  [("-webkit-touch-callout", "none"), ("-webkit-user-select", "none"),
   ("-khtml-user-select", "none"), ("-moz-user-select", "none"),
   ("-ms-user-select", "none"), ("user-select", "none")]

/-- The `.unselectable()` method: when the entity has the DOM component,
set the user-select css properties and trigger "Change"; otherwise do
nothing. -/
def unselectable (e : TextEntity) : OpResult :=
  if e.hasDOM then
    { entity := { e with cssProps := mergeInto e.cssProps unselectableCss },
      events := ["Change"] }
  else
    { entity := e, events := [] }

/-- Looking a key up after an assignment: the assigned value for that
key, the old value for every other key. -/
theorem getKey_setKey (m : List (String × String)) (k v k' : String) :
    getKey (setKey m k v) k' = if k = k' then some v else getKey m k' := by
  induction m with
  | nil => simp [setKey, getKey]
  | cons p rest ih =>
      obtain ⟨k1, v1⟩ := p
      by_cases h1 : k1 = k
      · subst h1
        by_cases h2 : k1 = k' <;> simp [setKey, getKey, h2]
      · by_cases h2 : k1 = k'
        · subst h2
          have hne : ¬ k = k1 := fun h => h1 h.symm
          simp [setKey, getKey, h1, hne]
        · simp [setKey, getKey, h1, h2, ih]

/-- Merging an object leaves every key the object does not bind
unchanged. -/
theorem getKey_mergeInto_of_not_bound (obj : List (String × String))
    (m : List (String × String)) (k : String)
    (h : ∀ p ∈ obj, p.1 ≠ k) :
    getKey (mergeInto m obj) k = getKey m k := by
  induction obj generalizing m with
  | nil => rfl
  | cons p rest ih =>
      have hrest : ∀ q ∈ rest, q.1 ≠ k := fun q hq => h q (List.mem_cons_of_mem p hq)
      have hp : p.1 ≠ k := h p (List.mem_cons_self p rest)
      show getKey (mergeInto (setKey m p.1 p.2) rest) k = getKey m k
      rw [ih (setKey m p.1 p.2) hrest, getKey_setKey]
      simp [hp]

/-- Claim C1: the canvas draw handler performs exactly the sequence save,
set fill style to the resolved colour (opaque black when no colour is
set), set font to the composed font string, translate to (x, y + h), draw
the text at the local origin, measure the text and write the measured
width into the cached width regardless of its previous value, restore. -/
theorem canvas_draw_sequence (e : TextEntity) (measure : String → String → Int) :
    (drawCanvas e measure).trace =
      [CanvasOp.save,
       CanvasOp.setFillStyle (jsOr e._textColor ("rgb(0,0,0)")),
       CanvasOp.setFont (fontString e._textFont),
       CanvasOp.translate e.x (e.y + e.h),
       CanvasOp.fillText e._text 0 0,
       CanvasOp.measureText e._text,
       CanvasOp.restore]
    ∧ ((drawCanvas { e with _textColor := none } measure).trace[1]?
        = some (CanvasOp.setFillStyle ("rgb(0,0,0)")))
    ∧ (∀ w : Int, (drawCanvas { e with _w := w } measure).entity._w
        = measure (fontString e._textFont) e._text)
    ∧ ((drawCanvas { e with x := 10, y := 20, h := 5 } measure).trace[3]?
        = some (CanvasOp.translate 10 25)) :=
  ⟨rfl, rfl, fun _ => rfl, rfl⟩

/-- Claim C2: the composed font string is the literal space-joined
concatenation of type, weight, size (default "10px" when empty) and
family (default "sans-serif" when empty); for the descriptor with only
weight set to "bold" it is " bold 10px sans-serif", leading space
preserved. -/
theorem composed_font_literal (tf : List (String × String)) (t w s f : String)
    (ht : getKey tf ("type") = some t) (hw : getKey tf ("weight") = some w)
    (hs : getKey tf ("size") = some s) (hf : getKey tf ("family") = some f) :
    fontString tf
      = t ++ " " ++ w ++ " " ++ (if s = "" then defaultSize else s)
        ++ " " ++ (if f = "" then defaultFamily else f)
    ∧ fontString [("type", ""), ("weight", "bold"), ("size", ""), ("family", "")]
      = " bold 10px sans-serif" := by
  constructor
  · simp [fontString, jsStr, jsOr, ht, hw, hs, hf]
  · decide

/-- Witness for C2 at the concrete descriptor with weight "bold". -/
theorem composed_font_literal_witness :
    fontString [("type", ""), ("weight", "bold"), ("size", ""), ("family", "")]
      = "" ++ " " ++ "bold" ++ " " ++ (if ("" : String) = "" then defaultSize else "")
        ++ " " ++ (if ("" : String) = "" then defaultFamily else "")
    ∧ fontString [("type", ""), ("weight", "bold"), ("size", ""), ("family", "")]
      = " bold 10px sans-serif" :=
  composed_font_literal
    [("type", ""), ("weight", "bold"), ("size", ""), ("family", "")]
    "" "bold" "" "" (by decide) (by decide) (by decide) (by decide)

/-- Claim C3: every mutating call (text with a set argument, textColor,
textFont in key+value or object form, unselectable on a DOM entity)
triggers exactly one "Change"; the getter forms of text and textFont
trigger none. -/
theorem change_per_mutating_call (e : TextEntity) (s k v color : String)
    (f : TextEntity → String) (strength : Option Int)
    (toRGB : String → Option Int → String) (m : List (String × String)) :
    (text e (TextArg.str s)).events = ["Change"]
    ∧ (text e (TextArg.fn f)).events = ["Change"]
    ∧ (textColor e color strength toRGB).events = ["Change"]
    ∧ (textFont2 e k v).events = ["Change"]
    ∧ (textFont1 e (FontArg.obj m)).events = ["Change"]
    ∧ (unselectable { e with hasDOM := true }).events = ["Change"]
    ∧ (text e TextArg.undef).events = []
    ∧ (textFont1 e (FontArg.str k)).events = [] :=
  ⟨rfl, rfl, rfl, rfl, rfl, rfl, rfl, rfl⟩

/-- Claim C4: textFont with an object argument merges the object's
bindings into the descriptor and leaves every key the object does not
bind unchanged; in particular setting type to italic and then family to
Arial leaves weight and size at their prior values. -/
theorem textFont_object_merge (e : TextEntity) (obj : List (String × String))
    (k : String) (h : ∀ p ∈ obj, p.1 ≠ k) :
    getKey (textFont1 e (FontArg.obj obj)).entity._textFont k
      = getKey e._textFont k
    ∧ (getKey (textFont1 (textFont1 e (FontArg.obj [("type", "italic")])).entity
          (FontArg.obj [("family", "Arial")])).entity._textFont ("weight")
        = getKey e._textFont ("weight"))
    ∧ (getKey (textFont1 (textFont1 e (FontArg.obj [("type", "italic")])).entity
          (FontArg.obj [("family", "Arial")])).entity._textFont ("size")
        = getKey e._textFont ("size")) := by
  refine ⟨getKey_mergeInto_of_not_bound obj e._textFont k h, ?_, ?_⟩
  · show getKey (mergeInto (mergeInto e._textFont ([("type", "italic")]))
        ([("family", "Arial")])) ("weight") = _
    rw [getKey_mergeInto_of_not_bound _ _ _ (by decide),
        getKey_mergeInto_of_not_bound _ _ _ (by decide)]
  · show getKey (mergeInto (mergeInto e._textFont ([("type", "italic")]))
        ([("family", "Arial")])) ("size") = _
    rw [getKey_mergeInto_of_not_bound _ _ _ (by decide),
        getKey_mergeInto_of_not_bound _ _ _ (by decide)]

/-- Witness for C4 on a fresh entity, merging a size-only object and
checking the weight key. -/
theorem textFont_object_merge_witness :
    getKey (textFont1 (initEntity 0 0 0 false)
        (FontArg.obj [("size", "20px")])).entity._textFont ("weight")
      = getKey (initEntity 0 0 0 false)._textFont ("weight")
    ∧ (getKey (textFont1 (textFont1 (initEntity 0 0 0 false)
          (FontArg.obj [("type", "italic")])).entity
          (FontArg.obj [("family", "Arial")])).entity._textFont ("weight")
        = getKey (initEntity 0 0 0 false)._textFont ("weight"))
    ∧ (getKey (textFont1 (textFont1 (initEntity 0 0 0 false)
          (FontArg.obj [("type", "italic")])).entity
          (FontArg.obj [("family", "Arial")])).entity._textFont ("size")
        = getKey (initEntity 0 0 0 false)._textFont ("size")) :=
  textFont_object_merge (initEntity 0 0 0 false) [("size", "20px")] "weight"
    (by decide)

/-- Claim C5: the DOM draw handler writes the resolved colour into the
element's colour style, the composed font string into its font style,
and the stored text verbatim, unescaped, into its content. -/
theorem dom_draw_literal (e : TextEntity) (el : DOMElement) :
    drawDOM e el
      = { styleColor := e._textColor, styleFont := fontString e._textFont,
          innerHTML := e._text }
    ∧ (drawDOM { e with _text := "<b>x</b>" } el).innerHTML = "<b>x</b>" :=
  ⟨rfl, rfl⟩

/-- Claim C6: text with a function argument invokes it exactly once,
immediately, with the entity as receiver, stores the returned string, and
the getter still returns that string after a later canvas draw, which
does not re-invoke the function. -/
theorem text_function_argument (e : TextEntity) (f : TextEntity → String)
    (measure : String → String → Int) :
    (text e (TextArg.fn f)).entity._text = f e
    ∧ (text e (TextArg.fn f)).fnCalls = 1
    ∧ (text (text e (TextArg.fn f)).entity TextArg.undef).returned = some (f e)
    ∧ (text (drawCanvas (text e (TextArg.fn f)).entity measure).entity
        TextArg.undef).returned = some (f e) :=
  ⟨rfl, rfl, rfl, rfl⟩

/-- Claim C7: setting a string and then calling the getter form returns
exactly that string. -/
theorem text_set_get_roundtrip (e : TextEntity) (s : String) :
    (text (text e (TextArg.str s)).entity TextArg.undef).returned = some s :=
  rfl

/-- Claim C8: unselectable on an entity without the DOM component leaves
the entity unchanged and triggers nothing. -/
theorem unselectable_without_dom (e : TextEntity) (h : e.hasDOM = false) :
    unselectable e = { entity := e, events := [] } := by
  simp [unselectable, h]

/-- Witness for C8 on a fresh entity without the DOM component. -/
theorem unselectable_without_dom_witness :
    unselectable (initEntity 0 0 0 false)
      = { entity := initEntity 0 0 0 false, events := [] } :=
  unselectable_without_dom (initEntity 0 0 0 false) rfl

/-- Claim C9: the stored size and family start as empty strings, no
operation other than textFont writes to the descriptor (in particular
the defaults are never written into it), and the defaults "10px" and
"sans-serif" appear only in the composed font string at draw time. -/
theorem stored_defaults_invariant (e : TextEntity) (arg : TextArg)
    (color : String) (strength : Option Int)
    (toRGB : String → Option Int → String)
    (measure : String → String → Int) :
    getKey initFont ("size") = some ""
    ∧ getKey initFont ("family") = some ""
    ∧ (text e arg).entity._textFont = e._textFont
    ∧ (textColor e color strength toRGB).entity._textFont = e._textFont
    ∧ (unselectable e).entity._textFont = e._textFont
    ∧ (drawCanvas e measure).entity._textFont = e._textFont
    ∧ fontString initFont = "  10px sans-serif" := by
  refine ⟨by decide, by decide, ?_, rfl, ?_, rfl, by decide⟩
  · cases arg <;> rfl
  · by_cases h : e.hasDOM <;> simp [unselectable, h]

/-- Claim C10: textFont with a single argument that is neither a string
nor an object leaves the descriptor (and the whole entity) unchanged yet
still triggers exactly one "Change". -/
theorem textFont_other_argument (e : TextEntity) :
    textFont1 e FontArg.other
      = { entity := e, events := ["Change"], returned := none } :=
  rfl

end CraftyText
